import Mathlib

/-!
Shallow embedding of the core of `app.py` (AI Business Analyst Agent):
the data-preprocessing / enrichment pipeline (lines 79–125), the three
analysis functions (lines 130–157), the intent dictionary (lines 159–163)
and the intent classifier (lines 168–185).

Modelling conventions:
* A pandas cell is a Python object; join keys are compared by Python
  equality, where an `int`/`float` month `3` and a `str` month `"3"` are
  *different* keys.  `Val` is the universal cell-value type used for such
  object-valued cells and join keys (`Val.null` stands for NaN/NaT/None).
* Numeric columns are modelled as `ℤ` (the source data are integral and
  pandas int64/float64 arithmetic on them is exact); the `mean`
  aggregates, which truly divide, are modelled as `ℚ`.
* `pd.to_datetime(col, errors="coerce")` is modelled by letting the date
  columns of the raw tables hold `Option PDate`, `none` standing for NaT
  (an unparseable date); `.dt.year` / `.dt.month` on NaT give NaN,
  modelled as `none`.
* `Series.map` / `Index.map` of a keyed series is `lookupFind` (first
  matching key); missing key gives `none` (NaN).
* `DataFrame.groupby(keys)` uses the pandas defaults `sort=True`
  (groups sorted by key) and `dropna=True` (rows whose group key holds
  NaN are dropped from the result).
* The module-level preprocessing of `app.py` mutates the loaded
  DataFrames in place; it is embedded as an explicit state transformer
  `runPreprocessing : RawTables → ModuleTables` from the state of the
  four tables right after loading to their state after line 125.
-/

/-- A calendar date as produced by `pd.to_datetime` (a parsed timestamp). -/
structure PDate where
  year : Int
  month : Int
  day : Int
deriving DecidableEq, Repr

/-- A pandas cell value (a Python object): a number, a string, a timestamp
or a null (NaN/NaT/None).  Equality is Python object equality: a numeric
`3` and a string `"3"` are different values. -/
inductive Val where
  | num (n : ℤ)
  | str (s : String)
  | date (d : PDate)
  | null
deriving DecidableEq, Repr

/-- Python `str(x)` as applied by `Series.astype(str)` to a cell: a string
stays itself, an integral number prints with no decimal point. -/
def Val.astypeStr : Val → String
  | .num n => toString n
  | .str s => s
  | .date d => toString d.year ++ "-" ++ toString d.month ++ "-" ++ toString d.day
  | .null => "nan"

/-- A `Month` cell of `online_sales` as a join-key object: the integer
month for a parsed date, NaN for NaT (`online_sales["Month"] =
online_sales["Transaction_Date"].dt.month`, line 84). -/
def monthVal : Option Int → Val
  | some m => .num m
  | none => .null

/-- `series.map(lookup)` for a keyed series: value of the first entry
whose key equals `k`, `none` (NaN) when no key matches. -/
def lookupFind {κ α : Type} [DecidableEq κ] (l : List (κ × α)) (k : κ) : Option α :=
  (l.find? fun p => p.1 = k).map (·.2)

/-- A row of `Online_Sales.csv` as loaded (the columns the core uses),
with `Transaction_Date` already through `pd.to_datetime(·, errors="coerce")`:
`none` is NaT, a retained row with an unparseable date. -/
structure OnlineSalesRow where
  Transaction_Date : Option PDate
  CustomerID : Int
  Product_Category : String
  Quantity : ℤ
  Avg_Price : ℤ
  Coupon_Status : Option String
deriving DecidableEq, Repr

/-- The `online_sales` row after lines 79–85: `Revenue`, `Year`, `Month`
derived, `Coupon_Status` nulls filled with `"No Coupon"`. -/
structure SalesPreRow where
  Transaction_Date : Option PDate
  CustomerID : Int
  Product_Category : String
  Quantity : ℤ
  Avg_Price : ℤ
  Coupon_Status : String
  Revenue : ℤ
  Year : Option Int
  Month : Option Int
deriving DecidableEq, Repr

/-- The `online_sales` row after the lookup joins of lines 112–125. -/
structure SalesEnrichedRow where
  Transaction_Date : Option PDate
  CustomerID : Int
  Product_Category : String
  Quantity : ℤ
  Avg_Price : ℤ
  Coupon_Status : String
  Revenue : ℤ
  Year : Option Int
  Month : Option Int
  GST_pct : Option ℤ
  Discount_pct : ℤ
  Marketing_Spend : Option ℤ
deriving DecidableEq, Repr

/-- A row of `Discount_Coupon.csv` as loaded: the `Month` column's cells
keep whatever Python type `read_csv` inferred (`Val`), `Discount_pct` may
be null. -/
structure CouponRow where
  Month : Val
  Product_Category : String
  Discount_pct : Option ℤ
deriving DecidableEq, Repr

/-- The `discount_coupon` row after lines 87–88:
`Month` through `.astype(str)`, `Discount_pct` nulls filled with 0. -/
structure CouponRow2 where
  Month : String
  Product_Category : String
  Discount_pct : ℤ
deriving DecidableEq, Repr

/-- A row of `Marketing_Spend.csv` as loaded, `Date` already through
`pd.to_datetime(·, errors="coerce")`. -/
structure MarketingRow where
  Date : Option PDate
  Offline_Spend : ℤ
  Online_Spend : ℤ
deriving DecidableEq, Repr

/-- The `marketing_spend` row after lines 90–95: `Year`, `Month`,
`Total_Marketing_Spend` derived. -/
structure MarketingRow2 where
  Date : Option PDate
  Offline_Spend : ℤ
  Online_Spend : ℤ
  Year : Option Int
  Month : Option Int
  Total_Marketing_Spend : ℤ
deriving DecidableEq, Repr

/-- A row of `Tax_amount.xlsx` as loaded; `GST` may be null. -/
structure TaxRow where
  Product_Category : String
  GST : Option ℤ
deriving DecidableEq, Repr

/-- The `tax_amount` row after line 97 (`GST` nulls filled with 0). -/
structure TaxRow2 where
  Product_Category : String
  GST : ℤ
deriving DecidableEq, Repr

/-- Lines 79–85: derive `Revenue = Quantity * Avg_Price`,
`Year`/`Month` from the transaction date (NaT gives NaN), and fill
`Coupon_Status` nulls with `"No Coupon"`. -/
def preprocess_sales_row (r : OnlineSalesRow) : SalesPreRow :=
  { Transaction_Date := r.Transaction_Date
    CustomerID := r.CustomerID
    Product_Category := r.Product_Category
    Quantity := r.Quantity
    Avg_Price := r.Avg_Price
    Coupon_Status := r.Coupon_Status.getD "No Coupon"
    Revenue := r.Quantity * r.Avg_Price
    Year := r.Transaction_Date.map (·.year)
    Month := r.Transaction_Date.map (·.month) }

/-- Lines 87–88: `discount_coupon["Month"].astype(str)` and
`discount_coupon["Discount_pct"].fillna(0)`. -/
def preprocess_coupon_row (c : CouponRow) : CouponRow2 :=
  { Month := c.Month.astypeStr
    Product_Category := c.Product_Category
    Discount_pct := c.Discount_pct.getD 0 }

/-- Lines 90–95: derive `Year`, `Month`, `Total_Marketing_Spend`. -/
def preprocess_marketing_row (m : MarketingRow) : MarketingRow2 :=
  { Date := m.Date
    Offline_Spend := m.Offline_Spend
    Online_Spend := m.Online_Spend
    Year := m.Date.map (·.year)
    Month := m.Date.map (·.month)
    Total_Marketing_Spend := m.Offline_Spend + m.Online_Spend }

/-- Line 97: `tax_amount["GST"].fillna(0)`. -/
def preprocess_tax_row (t : TaxRow) : TaxRow2 :=
  { Product_Category := t.Product_Category
    GST := t.GST.getD 0 }

/-- Line 102: `tax_lookup = tax_amount.set_index("Product_Category")["GST"]`. -/
def tax_lookup (tax : List TaxRow2) : List (String × ℤ) :=
  tax.map fun t => (t.Product_Category, t.GST)

/-- Lines 104–106: `discount_lookup = discount_coupon.set_index(["Month",
"Product_Category"])["Discount_pct"]`.  The index entries are tuples of
Python objects; after `.astype(str)` every `Month` key is a string. -/
def discount_lookup (coupons : List CouponRow2) : List ((Val × String) × ℤ) :=
  coupons.map fun c => ((Val.str c.Month, c.Product_Category), c.Discount_pct)

/-- Lexicographic order on `(Year, Month)` group keys. -/
def ymLe (a b : Int × Int) : Prop :=
  a.1 < b.1 ∨ (a.1 = b.1 ∧ a.2 ≤ b.2)

instance : DecidableRel ymLe := fun a b => by unfold ymLe; exact inferInstance

/-- Lines 108–110: `marketing_lookup = marketing_spend.groupby(["Year",
"Month"])["Total_Marketing_Spend"].sum()` — pandas defaults: rows whose
`Year` or `Month` is NaN are dropped, groups are sorted by key. -/
def marketing_lookup (ms : List MarketingRow2) : List ((Int × Int) × ℤ) :=
  let rows := ms.filterMap fun m =>
    match m.Year, m.Month with
    | some y, some mo => some ((y, mo), m.Total_Marketing_Spend)
    | _, _ => none
  let ks := List.insertionSort ymLe (rows.map (·.1)).dedup
  ks.map fun k => (k, ((rows.filter fun p => p.1 = k).map (·.2)).sum)

/-- Lines 112–125: attach `GST_pct` (`map(tax_lookup)`, no fill),
`Discount_pct` (`index.map(discount_lookup).fillna(0)`; the sales-side
key is the *integer* month object) and `Marketing_Spend`
(`index.map(marketing_lookup)`, no fill; a NaN `Year`/`Month` key matches
no group). -/
def attach_lookups (tl : List (String × ℤ)) (dl : List ((Val × String) × ℤ))
    (ml : List ((Int × Int) × ℤ)) (r : SalesPreRow) : SalesEnrichedRow :=
  { Transaction_Date := r.Transaction_Date
    CustomerID := r.CustomerID
    Product_Category := r.Product_Category
    Quantity := r.Quantity
    Avg_Price := r.Avg_Price
    Coupon_Status := r.Coupon_Status
    Revenue := r.Revenue
    Year := r.Year
    Month := r.Month
    GST_pct := lookupFind tl r.Product_Category
    Discount_pct := (lookupFind dl (monthVal r.Month, r.Product_Category)).getD 0
    Marketing_Spend :=
      match r.Year, r.Month with
      | some y, some m => lookupFind ml (y, m)
      | _, _ => none }

/-- The four DataFrames right after loading (lines 42–46), dates already
through `pd.to_datetime(·, errors="coerce")`. -/
structure RawTables where
  online_sales : List OnlineSalesRow
  discount_coupon : List CouponRow
  marketing_spend : List MarketingRow
  tax_amount : List TaxRow
deriving DecidableEq, Repr

/-- The four DataFrames after the module-level preprocessing and lookup
joins (state after line 125). -/
structure ModuleTables where
  online_sales : List SalesEnrichedRow
  discount_coupon : List CouponRow2
  marketing_spend : List MarketingRow2
  tax_amount : List TaxRow2
deriving DecidableEq, Repr

/-- Lines 79–125 as a state transformer on the four module-level tables
(the Python code updates the same DataFrame variables in place). -/
def runPreprocessing (t : RawTables) : ModuleTables :=
  { online_sales :=
      (t.online_sales.map preprocess_sales_row).map
        (attach_lookups (tax_lookup (t.tax_amount.map preprocess_tax_row))
          (discount_lookup (t.discount_coupon.map preprocess_coupon_row))
          (marketing_lookup (t.marketing_spend.map preprocess_marketing_row)))
    discount_coupon := t.discount_coupon.map preprocess_coupon_row
    marketing_spend := t.marketing_spend.map preprocess_marketing_row
    tax_amount := t.tax_amount.map preprocess_tax_row }

/-- The enriched fact table produced from the four raw tables. -/
def enrich (sales : List OnlineSalesRow) (coupons : List CouponRow)
    (mkt : List MarketingRow) (tax : List TaxRow) : List SalesEnrichedRow :=
  (runPreprocessing ⟨sales, coupons, mkt, tax⟩).online_sales

/-- A result row of `sales_trend` (lines 130–135).  The group keys are
plain integers: pandas `groupby` has already dropped NaN-keyed rows. -/
structure TrendRow where
  Year : Int
  Month : Int
  Product_Category : String
  Revenue : ℤ
deriving DecidableEq, Repr

/-- The `(Year, Month, Product_Category)` group key of an enriched row
(only applied to rows whose `Year` and `Month` are non-null). -/
def trendKey (r : SalesEnrichedRow) : Int × Int × String :=
  (r.Year.getD 0, r.Month.getD 0, r.Product_Category)

/-- Lexicographic order on `sales_trend` group keys. -/
def trendKeyLe (a b : Int × Int × String) : Prop :=
  a.1 < b.1 ∨ (a.1 = b.1 ∧ (a.2.1 < b.2.1 ∨ (a.2.1 = b.2.1 ∧ a.2.2 ≤ b.2.2)))

instance : DecidableRel trendKeyLe := fun a b => by unfold trendKeyLe; exact inferInstance

/-- Lines 130–135: `df.groupby(["Year","Month","Product_Category"])
["Revenue"].sum().reset_index()` — pandas defaults: rows with a NaN
group key dropped, groups sorted by key. -/
def sales_trend (df : List SalesEnrichedRow) : List TrendRow :=
  (List.insertionSort trendKeyLe
      (((df.filter fun r => r.Year.isSome && r.Month.isSome).map trendKey).dedup)).map
    fun k =>
      { Year := k.1
        Month := k.2.1
        Product_Category := k.2.2
        Revenue := (((df.filter fun r => r.Year.isSome && r.Month.isSome).filter
            fun r => trendKey r = k).map (·.Revenue)).sum }

/-- A result row of `underperforming_products` (lines 137–147). -/
structure UnderRow where
  Product_Category : String
  total_revenue : ℤ
  avg_discount : ℚ
  total_quantity : ℤ
deriving DecidableEq, Repr

/-- A result row of `discount_vs_revenue` (lines 149–157). -/
structure DvrRow where
  Product_Category : String
  avg_discount_pct : ℚ
  total_revenue : ℤ
deriving DecidableEq, Repr

/-- Order on category group keys (pandas sorts group keys). -/
def catLe (a b : String) : Prop := a ≤ b

instance : DecidableRel catLe := fun a b => by unfold catLe; exact inferInstance

/-- `sort_values("total_revenue")` comparison (ascending, the default). -/
def underLe (a b : UnderRow) : Prop := a.total_revenue ≤ b.total_revenue

instance : DecidableRel underLe := fun a b => by unfold underLe; exact inferInstance

instance : IsTotal UnderRow underLe := ⟨fun a b => le_total a.total_revenue b.total_revenue⟩

instance : IsTrans UnderRow underLe := ⟨fun _ _ _ h h2 => le_trans h h2⟩

/-- Lines 137–147: group by `Product_Category`, aggregate
`total_revenue = sum(Revenue)`, `avg_discount = mean(Discount_pct)`,
`total_quantity = sum(Quantity)`, then `sort_values("total_revenue")`
(ascending). -/
def underperforming_products (df : List SalesEnrichedRow) : List UnderRow :=
  List.insertionSort underLe
    ((List.insertionSort catLe (df.map (·.Product_Category)).dedup).map fun c =>
      { Product_Category := c
        total_revenue := ((df.filter fun r => r.Product_Category = c).map (·.Revenue)).sum
        avg_discount := (((df.filter fun r => r.Product_Category = c).map
            (·.Discount_pct)).sum : ℚ)
          / ((df.filter fun r => r.Product_Category = c).length : ℚ)
        total_quantity := ((df.filter fun r => r.Product_Category = c).map (·.Quantity)).sum })

/-- Lines 149–157: group by `Product_Category`, aggregate
`avg_discount_pct = mean(Discount_pct)`, `total_revenue = sum(Revenue)`. -/
def discount_vs_revenue (df : List SalesEnrichedRow) : List DvrRow :=
  (List.insertionSort catLe (df.map (·.Product_Category)).dedup).map fun c =>
    { Product_Category := c
      avg_discount_pct := (((df.filter fun r => r.Product_Category = c).map
          (·.Discount_pct)).sum : ℚ)
        / ((df.filter fun r => r.Product_Category = c).length : ℚ)
      total_revenue := ((df.filter fun r => r.Product_Category = c).map (·.Revenue)).sum }

/-- The value type of the `INTENT_TO_ANALYSIS` dictionary: the three
analysis functions return differently-shaped tables. -/
inductive AnalysisResult where
  | trend (rows : List TrendRow)
  | under (rows : List UnderRow)
  | dvr (rows : List DvrRow)
deriving DecidableEq, Repr

/-- Lines 159–163: the intent-name → analysis-function dictionary. -/
def INTENT_TO_ANALYSIS : List (String × (List SalesEnrichedRow → AnalysisResult)) :=
  [("sales_trend", fun df => .trend (sales_trend df)),
   ("underperforming_products", fun df => .under (underperforming_products df)),
   ("discount_vs_revenue", fun df => .dvr (discount_vs_revenue df))]

/-- A failure raised by the external Groq chat-completion call. -/
inductive GroqError where
  | network
  | timeout
  | auth
deriving DecidableEq, Repr

/-- The request `client.chat.completions.create` is given (model name,
the single user message's content, sampling temperature). -/
structure ChatRequest where
  model : String
  content : String
  temperature : ℚ
deriving DecidableEq, Repr

/-- Lines 169–178: the classification prompt template with the question
interpolated. -/
def classify_prompt (query : String) : String :=
  "\nClassify into ONE intent:\n- sales_trend\n- underperforming_products\n- discount_vs_revenue\n- unknown\n\nReturn ONLY the intent name.\nQuestion: " ++ query ++ "\n"

/-- The request built on lines 179–183 (`llama-3.1-8b-instant`,
temperature 0, the prompt as the single user message). -/
def classifyRequest (query : String) : ChatRequest :=
  ⟨"llama-3.1-8b-instant", classify_prompt query, 0⟩

/-- Lines 168–185: `classify_intent`.  The external call is injected as
`send`; a raised exception (`Except.error`) propagates uncaught.  On a
successful response the content is stripped, lowercased and checked for
membership among the `INTENT_TO_ANALYSIS` keys; anything else becomes
`"unknown"`. -/
def classify_intent (send : ChatRequest → Except GroqError String)
    (query : String) : Except GroqError String :=
  match send (classifyRequest query) with
  | .error e => .error e
  | .ok content =>
      let intent := content.trim.toLower
      .ok (if (INTENT_TO_ANALYSIS.lookup intent).isSome then intent else "unknown")

/-- An optional string cell as a Python object. -/
def optStrVal : Option String → Val
  | some s => .str s
  | none => .null

/-- An optional date cell as a Python object (NaT is null). -/
def optDateVal : Option PDate → Val
  | some d => .date d
  | none => .null

/-- An optional numeric cell as a Python object (NaN is null). -/
def optIntVal : Option Int → Val
  | some n => .num n
  | none => .null

/-- The observable content of a loaded `online_sales` row: its cells as
(column name, value) pairs. -/
def OnlineSalesRow.cells (r : OnlineSalesRow) : List (String × Val) :=
  [("Transaction_Date", optDateVal r.Transaction_Date),
   ("CustomerID", .num r.CustomerID),
   ("Product_Category", .str r.Product_Category),
   ("Quantity", .num r.Quantity),
   ("Avg_Price", .num r.Avg_Price),
   ("Coupon_Status", optStrVal r.Coupon_Status)]

/-- The observable content of an enriched `online_sales` row. -/
def SalesEnrichedRow.cells (r : SalesEnrichedRow) : List (String × Val) :=
  [("Transaction_Date", optDateVal r.Transaction_Date),
   ("CustomerID", .num r.CustomerID),
   ("Product_Category", .str r.Product_Category),
   ("Quantity", .num r.Quantity),
   ("Avg_Price", .num r.Avg_Price),
   ("Coupon_Status", .str r.Coupon_Status),
   ("Revenue", .num r.Revenue),
   ("Year", optIntVal r.Year),
   ("Month", optIntVal r.Month),
   ("GST_pct", optIntVal r.GST_pct),
   ("Discount_pct", .num r.Discount_pct),
   ("Marketing_Spend", optIntVal r.Marketing_Spend)]

/-- The observable content of a loaded `discount_coupon` row. -/
def CouponRow.cells (c : CouponRow) : List (String × Val) :=
  [("Month", c.Month),
   ("Product_Category", .str c.Product_Category),
   ("Discount_pct", optIntVal c.Discount_pct)]

/-- The observable content of a preprocessed `discount_coupon` row. -/
def CouponRow2.cells (c : CouponRow2) : List (String × Val) :=
  [("Month", .str c.Month),
   ("Product_Category", .str c.Product_Category),
   ("Discount_pct", .num c.Discount_pct)]

/-- The observable content of a loaded `marketing_spend` row. -/
def MarketingRow.cells (m : MarketingRow) : List (String × Val) :=
  [("Date", optDateVal m.Date),
   ("Offline_Spend", .num m.Offline_Spend),
   ("Online_Spend", .num m.Online_Spend)]

/-- The observable content of a preprocessed `marketing_spend` row. -/
def MarketingRow2.cells (m : MarketingRow2) : List (String × Val) :=
  [("Date", optDateVal m.Date),
   ("Offline_Spend", .num m.Offline_Spend),
   ("Online_Spend", .num m.Online_Spend),
   ("Year", optIntVal m.Year),
   ("Month", optIntVal m.Month),
   ("Total_Marketing_Spend", .num m.Total_Marketing_Spend)]

/-- The observable content of a loaded `tax_amount` row. -/
def TaxRow.cells (t : TaxRow) : List (String × Val) :=
  [("Product_Category", .str t.Product_Category),
   ("GST", optIntVal t.GST)]

/-- The observable content of a preprocessed `tax_amount` row. -/
def TaxRow2.cells (t : TaxRow2) : List (String × Val) :=
  [("Product_Category", .str t.Product_Category),
   ("GST", .num t.GST)]

/-- The spec's scenario sales row: Apparel, 2022-03-01, quantity 10,
average price 20. -/
def scenarioSalesRow : OnlineSalesRow :=
  { Transaction_Date := some ⟨2022, 3, 1⟩
    CustomerID := 17850
    Product_Category := "Apparel"
    Quantity := 10
    Avg_Price := 20
    Coupon_Status := some "Used" }

/-- The spec's scenario coupon row: month 3 (a *numeric* cell in the
loaded table), Apparel, 15 percent. -/
def scenarioCouponRow : CouponRow :=
  { Month := .num 3
    Product_Category := "Apparel"
    Discount_pct := some 15 }

/-- The spec's scenario marketing row: March 2022, 600 offline + 400
online spend. -/
def scenarioMarketingRow : MarketingRow :=
  { Date := some ⟨2022, 3, 5⟩
    Offline_Spend := 600
    Online_Spend := 400 }

/-- The spec's scenario tax row: Apparel at 5 percent GST. -/
def scenarioTaxRow : TaxRow :=
  { Product_Category := "Apparel"
    GST := some 5 }

/-- The four raw tables of the spec's scenario. -/
def scenarioTables : RawTables :=
  ⟨[scenarioSalesRow], [scenarioCouponRow], [scenarioMarketingRow], [scenarioTaxRow]⟩

/-- A sales row whose transaction date failed to parse (NaT). -/
def badDateSalesRow : OnlineSalesRow :=
  { Transaction_Date := none
    CustomerID := 12583
    Product_Category := "Apparel"
    Quantity := 10
    Avg_Price := 20
    Coupon_Status := some "Used" }

/-- A tax row for a category other than the scenario sales row's. -/
def otherTaxRow : TaxRow :=
  { Product_Category := "Nest-USA"
    GST := some 10 }

/-- A small concrete enriched table (two sales rows, one with an
unparseable date). -/
def demoDf : List SalesEnrichedRow :=
  enrich [scenarioSalesRow, badDateSalesRow] [scenarioCouponRow] [scenarioMarketingRow]
    [scenarioTaxRow]

/-- Membership among the keys of the `INTENT_TO_ANALYSIS` dictionary is
exactly being one of the three analysis-intent names. -/
theorem intent_lookup_isSome_iff (s : String) :
    (INTENT_TO_ANALYSIS.lookup s).isSome = true ↔
      s = "sales_trend" ∨ s = "underperforming_products" ∨ s = "discount_vs_revenue" := by
  by_cases h1 : s = "sales_trend"
  · subst h1; simp [INTENT_TO_ANALYSIS, List.lookup]
  · by_cases h2 : s = "underperforming_products"
    · subst h2; simp [INTENT_TO_ANALYSIS, List.lookup]
    · by_cases h3 : s = "discount_vs_revenue"
      · subst h3; simp [INTENT_TO_ANALYSIS, List.lookup]
      · have e1 : (s == "sales_trend") = false := beq_eq_false_iff_ne.mpr h1
        have e2 : (s == "underperforming_products") = false := beq_eq_false_iff_ne.mpr h2
        have e3 : (s == "discount_vs_revenue") = false := beq_eq_false_iff_ne.mpr h3
        simp [INTENT_TO_ANALYSIS, List.lookup, e1, e2, e3, h1, h2, h3]

/-- C3: for every question and every raw response returned by the
external model, `classify_intent` returns a member of the closed intent
set {sales_trend, underperforming_products, discount_vs_revenue,
unknown} and never any other string; the raw response is trimmed and
lowercased, and any normalized text that is not exactly one of the three
analysis intents yields `unknown`. -/
theorem C3_classify_closed_set (send : ChatRequest → Except GroqError String)
    (q raw : String) (h : send (classifyRequest q) = .ok raw) :
    ∃ i, classify_intent send q = .ok i
      ∧ (i = "sales_trend" ∨ i = "underperforming_products"
          ∨ i = "discount_vs_revenue" ∨ i = "unknown")
      ∧ ((raw.trim.toLower ≠ "sales_trend" ∧ raw.trim.toLower ≠ "underperforming_products"
          ∧ raw.trim.toLower ≠ "discount_vs_revenue") → i = "unknown") := by
  refine ⟨if (INTENT_TO_ANALYSIS.lookup raw.trim.toLower).isSome then raw.trim.toLower
    else "unknown", ?_, ?_, ?_⟩
  · unfold classify_intent
    rw [h]
  · by_cases hs : (INTENT_TO_ANALYSIS.lookup raw.trim.toLower).isSome = true
    · rw [if_pos hs]
      rcases (intent_lookup_isSome_iff _).mp hs with h' | h' | h'
      · exact Or.inl h'
      · exact Or.inr (Or.inl h')
      · exact Or.inr (Or.inr (Or.inl h'))
    · rw [if_neg hs]
      exact Or.inr (Or.inr (Or.inr rfl))
  · intro hne
    have hns : ¬ (INTENT_TO_ANALYSIS.lookup raw.trim.toLower).isSome = true := by
      rw [intent_lookup_isSome_iff]
      rcases hne with ⟨n1, n2, n3⟩
      rintro (h' | h' | h') <;> [exact n1 h'; exact n2 h'; exact n3 h']
    rw [if_neg hns]

/-- Witness for C3: the classifier given the malformed response
"sales_trend please" (the spec's scenario) produces `unknown`, a member
of the closed set. -/
theorem C3_classify_closed_set_witness :
    ∃ i, classify_intent (fun _ => Except.ok "sales_trend please") "Which trend?" = .ok i
      ∧ (i = "sales_trend" ∨ i = "underperforming_products"
          ∨ i = "discount_vs_revenue" ∨ i = "unknown")
      ∧ ((("sales_trend please" : String).trim.toLower ≠ "sales_trend"
          ∧ ("sales_trend please" : String).trim.toLower ≠ "underperforming_products"
          ∧ ("sales_trend please" : String).trim.toLower ≠ "discount_vs_revenue") → i = "unknown") :=
  C3_classify_closed_set (fun _ => Except.ok "sales_trend please") "Which trend?"
    "sales_trend please" rfl

/-- C8: when the external call made by `classify_intent` fails, the
failure is not converted to the intent `unknown`: the raised error
propagates to the caller (distinct from every successful
classification), so the caller can tell a classifier-service failure
from an unrecognized question. -/
theorem C8_classify_error_propagates (send : ChatRequest → Except GroqError String)
    (q : String) (e : GroqError) (h : send (classifyRequest q) = .error e) :
    classify_intent send q = .error e ∧ ∀ s : String, classify_intent send q ≠ .ok s := by
  unfold classify_intent
  rw [h]
  exact ⟨rfl, fun s hc => by cases hc⟩

/-- Witness for C8: a network failure of the external call surfaces as
that error, and in particular not as `unknown`. -/
theorem C8_classify_error_propagates_witness :
    classify_intent (fun _ => Except.error GroqError.network) "Which trend?"
        = .error GroqError.network
    ∧ ∀ s : String, classify_intent (fun _ => Except.error GroqError.network) "Which trend?"
        ≠ .ok s :=
  C8_classify_error_propagates (fun _ => Except.error GroqError.network) "Which trend?"
    GroqError.network rfl

/-- Helper: the discount join key built from a sales row (an integer or
null month object) never equals a discount-lookup key (always a string
month after `astype(str)`), so the lookup misses on every row. -/
theorem discount_lookup_always_misses (coupons : List CouponRow2) (m : Option Int)
    (cat : String) :
    lookupFind (discount_lookup coupons) (monthVal m, cat) = none := by
  unfold lookupFind
  have h : (discount_lookup coupons).find? (fun p => p.1 = (monthVal m, cat)) = none := by
    rw [List.find?_eq_none]
    intro x hx
    rcases List.mem_map.mp (by simpa [discount_lookup] using hx) with ⟨c, _, rfl⟩
    simp only [decide_eq_true_eq]
    intro heq
    have h1 : Val.str c.Month = monthVal m := congrArg Prod.fst heq
    cases m <;> simp [monthVal] at h1
  rw [h]
  rfl

/-- C1 (code_bug): the month representation of the discount lookup's
join key and the month derived from the sales transaction date are NOT
identically canonicalized: the lookup months are strings
(`astype(str)`, line 87) while the sales months are integers
(`dt.month`, line 84), so the join finds no entry for any row and every
enriched row's Discount_pct is the all-default 0, whatever the tables
contain — a logically matching discount entry is never found. -/
theorem C1_discount_join_type_mismatch (sales : List OnlineSalesRow)
    (coupons : List CouponRow) (mkt : List MarketingRow) (tax : List TaxRow)
    (row : SalesEnrichedRow) (hrow : row ∈ enrich sales coupons mkt tax) :
    row.Discount_pct = 0 := by
  simp only [enrich, runPreprocessing, List.mem_map] at hrow
  obtain ⟨p, ⟨a, _, rfl⟩, rfl⟩ := hrow
  show (lookupFind (discount_lookup _)
    (monthVal (preprocess_sales_row a).Month, (preprocess_sales_row a).Product_Category)).getD 0 = 0
  rw [discount_lookup_always_misses]
  rfl

/-- Witness for C1: on the spec's scenario tables — which contain a
coupon entry (month 3, Apparel, 15) logically matching the sales row —
the enriched row's Discount_pct is still 0. -/
theorem C1_discount_join_type_mismatch_witness :
    ((enrich [scenarioSalesRow] [scenarioCouponRow] [scenarioMarketingRow]
        [scenarioTaxRow]).get ⟨0, by decide⟩).Discount_pct = 0 :=
  C1_discount_join_type_mismatch _ _ _ _ _ (List.get_mem _ _ _)

/-- C4: a sales row whose (Month, Product_Category) join key matches no
entry of the discount lookup gets the default Discount_pct = 0
(`fillna(0)`, line 119). -/
theorem C4_missing_discount_key_defaults_zero (sales : List OnlineSalesRow)
    (coupons : List CouponRow) (mkt : List MarketingRow) (tax : List TaxRow)
    (row : SalesEnrichedRow) (hrow : row ∈ enrich sales coupons mkt tax)
    (hmiss : ∀ e ∈ discount_lookup (coupons.map preprocess_coupon_row),
        e.1 ≠ (monthVal row.Month, row.Product_Category)) :
    row.Discount_pct = 0 := by
  simp only [enrich, runPreprocessing, List.mem_map] at hrow
  obtain ⟨p, ⟨a, _, rfl⟩, rfl⟩ := hrow
  simp only [attach_lookups] at hmiss
  show (lookupFind (discount_lookup _)
    (monthVal (preprocess_sales_row a).Month, (preprocess_sales_row a).Product_Category)).getD 0 = 0
  have h : (discount_lookup (coupons.map preprocess_coupon_row)).find?
      (fun p => p.1 = (monthVal (preprocess_sales_row a).Month,
        (preprocess_sales_row a).Product_Category)) = none := by
    rw [List.find?_eq_none]
    intro x hx
    simp only [decide_eq_true_eq]
    exact hmiss x hx
  unfold lookupFind
  rw [h]
  rfl

/-- Witness for C4: with an empty coupon table (so no key matches) the
scenario sales row's Discount_pct defaults to 0. -/
theorem C4_missing_discount_key_defaults_zero_witness :
    ((enrich [scenarioSalesRow] [] [scenarioMarketingRow] [scenarioTaxRow]).get
        ⟨0, by decide⟩).Discount_pct = 0 :=
  C4_missing_discount_key_defaults_zero _ _ _ _ _ (List.get_mem _ _ _) (by decide)

/-- Helper: the GST lookup attached on line 112, evaluated through the
tax table's preprocessing: it is the first tax row of the category, its
null GST filled with 0; a missing category stays `none`. -/
theorem tax_lookup_eval (tax : List TaxRow) (cat : String) :
    lookupFind (tax_lookup (tax.map preprocess_tax_row)) cat
      = (tax.find? fun t => t.Product_Category = cat).map (fun t => t.GST.getD 0) := by
  unfold lookupFind tax_lookup
  rw [List.map_map, List.find?_map, Option.map_map]
  rfl

/-- C9: a sales row whose category is absent from the tax table gets a
null GST_pct — no zero default is applied (line 112 has no `fillna`) —
whereas a category whose tax-table row has a null GST cell gets
GST_pct = 0, because the tax table's nulls are filled with 0 (line 97)
before the lookup is built. -/
theorem C9_gst_missing_category_null (sales : List OnlineSalesRow)
    (coupons : List CouponRow) (mkt : List MarketingRow) (tax : List TaxRow)
    (row : SalesEnrichedRow) (hrow : row ∈ enrich sales coupons mkt tax) :
    ((∀ t ∈ tax, t.Product_Category ≠ row.Product_Category) → row.GST_pct = none)
    ∧ (∀ t0 : TaxRow,
        tax.find? (fun t => t.Product_Category = row.Product_Category) = some t0 →
        t0.GST = none → row.GST_pct = some 0) := by
  simp only [enrich, runPreprocessing, List.mem_map] at hrow
  obtain ⟨p, ⟨a, _, rfl⟩, rfl⟩ := hrow
  simp only [attach_lookups]
  constructor
  · intro hmiss
    rw [tax_lookup_eval]
    have h : (tax.find? fun t => t.Product_Category = (preprocess_sales_row a).Product_Category)
        = none := by
      rw [List.find?_eq_none]
      intro t ht
      simp only [decide_eq_true_eq]
      exact hmiss t ht
    rw [h]
    rfl
  · intro t0 hfind hnull
    rw [tax_lookup_eval, hfind]
    simp [hnull]

/-- Witness for C9: with a tax table holding only the Nest-USA category,
the Apparel sales row's GST_pct is null. -/
theorem C9_gst_missing_category_null_witness :
    ((enrich [scenarioSalesRow] [scenarioCouponRow] [scenarioMarketingRow]
        [otherTaxRow]).get ⟨0, by decide⟩).GST_pct = none :=
  (C9_gst_missing_category_null _ _ _ _ _ (List.get_mem _ _ _)).1 (by decide)

/-- C10: a sales row whose (Year, Month) pair has no entry in the
marketing lookup — in particular one whose Year or Month is null — gets
a null Marketing_Spend: lines 121–125 apply no `fillna`, so the missing
period propagates as null. -/
theorem C10_missing_marketing_period_null (sales : List OnlineSalesRow)
    (coupons : List CouponRow) (mkt : List MarketingRow) (tax : List TaxRow)
    (row : SalesEnrichedRow) (hrow : row ∈ enrich sales coupons mkt tax)
    (hmiss : ∀ e ∈ marketing_lookup (mkt.map preprocess_marketing_row),
        ∀ y m : Int, row.Year = some y → row.Month = some m → e.1 ≠ (y, m)) :
    row.Marketing_Spend = none := by
  simp only [enrich, runPreprocessing, List.mem_map] at hrow
  obtain ⟨p, ⟨a, _, rfl⟩, rfl⟩ := hrow
  simp only [attach_lookups, preprocess_sales_row] at hmiss ⊢
  cases hd : a.Transaction_Date with
  | none => simp [hd]
  | some d =>
      simp only [hd, Option.map_some'] at hmiss ⊢
      unfold lookupFind
      have h : (marketing_lookup (mkt.map preprocess_marketing_row)).find?
          (fun p => p.1 = (d.year, d.month)) = none := by
        rw [List.find?_eq_none]
        intro e he
        simp only [decide_eq_true_eq]
        exact hmiss e he d.year d.month rfl rfl
      rw [h]
      rfl

/-- Witness for C10: with an empty marketing table the scenario sales
row's Marketing_Spend is null. -/
theorem C10_missing_marketing_period_null_witness :
    ((enrich [scenarioSalesRow] [scenarioCouponRow] [] [scenarioTaxRow]).get
        ⟨0, by decide⟩).Marketing_Spend = none :=
  C10_missing_marketing_period_null _ _ _ _ _ (List.get_mem _ _ _)
    (by intro e he; simp [marketing_lookup] at he)

/-- C2 (code_bug evaluation): on the spec's scenario — an Apparel sales
row of March 2022 with quantity 10 and price 20, a coupon entry (month
3, Apparel, 15), a tax entry (Apparel, 5) and marketing spend 1000 for
(2022, 3) — the enriched row has Revenue 200, GST_pct 5 and
Marketing_Spend 1000 as the claim states, but Discount_pct 0 instead of
the claimed 15: the coupon month key is the string "3" while the
sales-side month key is the integer 3, so the join misses. -/
theorem C2_scenario_enrichment_eval :
    (enrich [scenarioSalesRow] [scenarioCouponRow] [scenarioMarketingRow] [scenarioTaxRow]).map
        (fun r => (r.Revenue, r.Discount_pct, r.GST_pct, r.Marketing_Spend))
      = [(200, 0, some 5, some 1000)] := by
  decide

/-- C6 (counterexample): a sales row whose transaction date is
unparseable is retained in the enriched table with null `Year` and
`Month`, but `sales_trend` returns no group at all for it — the pandas
`groupby` drops null-keyed rows instead of letting them form their own
group, so the claim's second half fails. -/
theorem C6_counterexample :
    (enrich [badDateSalesRow] [] [] []).map (fun r => (r.Year, r.Month)) = [(none, none)]
    ∧ sales_trend (enrich [badDateSalesRow] [] [] []) = [] := by
  decide

/-- C7 (counterexample): after the module-level preprocessing runs on
the scenario tables, it is not the case that all four canonical tables
are unchanged — the Sales table gains derived columns and the coupon
month cell is rewritten from the number 3 to the string "3", among other
in-place changes. -/
theorem C7_counterexample :
    ¬ ((runPreprocessing scenarioTables).online_sales.map SalesEnrichedRow.cells
          = scenarioTables.online_sales.map OnlineSalesRow.cells
      ∧ (runPreprocessing scenarioTables).discount_coupon.map CouponRow2.cells
          = scenarioTables.discount_coupon.map CouponRow.cells
      ∧ (runPreprocessing scenarioTables).marketing_spend.map MarketingRow2.cells
          = scenarioTables.marketing_spend.map MarketingRow.cells
      ∧ (runPreprocessing scenarioTables).tax_amount.map TaxRow2.cells
          = scenarioTables.tax_amount.map TaxRow.cells) := by
  decide

/-- C5: `underperforming_products` returns one row per Product_Category
(the distinct categories of the input table), each carrying
total_revenue = sum(Revenue), avg_discount = mean(Discount_pct) and
total_quantity = sum(Quantity) over that category's rows, and the
returned rows are sorted ascending by total_revenue. -/
theorem C5_underperforming_products_spec (df : List SalesEnrichedRow) :
    List.Perm ((underperforming_products df).map (·.Product_Category))
        ((df.map (·.Product_Category)).dedup)
    ∧ (∀ r ∈ underperforming_products df,
        r.total_revenue
            = ((df.filter fun x => x.Product_Category = r.Product_Category).map (·.Revenue)).sum
        ∧ r.avg_discount
            = (((df.filter fun x => x.Product_Category = r.Product_Category).map
                (·.Discount_pct)).sum : ℚ)
              / ((df.filter fun x => x.Product_Category = r.Product_Category).length : ℚ)
        ∧ r.total_quantity
            = ((df.filter fun x => x.Product_Category = r.Product_Category).map (·.Quantity)).sum)
    ∧ (underperforming_products df).Pairwise
        (fun a b => a.total_revenue ≤ b.total_revenue) := by
  refine ⟨?_, ?_, ?_⟩
  · unfold underperforming_products
    refine ((List.perm_insertionSort underLe _).map (·.Product_Category)).trans ?_
    rw [List.map_map]
    have hcomp : ((fun r : UnderRow => r.Product_Category) ∘ fun c =>
        ({ Product_Category := c
           total_revenue := ((df.filter fun r => r.Product_Category = c).map (·.Revenue)).sum
           avg_discount := (((df.filter fun r => r.Product_Category = c).map
               (·.Discount_pct)).sum : ℚ)
             / ((df.filter fun r => r.Product_Category = c).length : ℚ)
           total_quantity := ((df.filter fun r => r.Product_Category = c).map
             (·.Quantity)).sum } : UnderRow)) = id := rfl
    rw [hcomp, List.map_id]
    exact List.perm_insertionSort catLe _
  · intro r hr
    unfold underperforming_products at hr
    have hr2 := (List.perm_insertionSort underLe _).mem_iff.mp hr
    rcases List.mem_map.mp hr2 with ⟨c, _, rfl⟩
    exact ⟨rfl, rfl, rfl⟩
  · exact (List.sorted_insertionSort underLe _).imp (fun h => h)

/-- Witness for C5 at the concrete demo table. -/
theorem C5_underperforming_products_spec_witness :
    List.Perm ((underperforming_products demoDf).map (·.Product_Category))
        ((demoDf.map (·.Product_Category)).dedup)
    ∧ (∀ r ∈ underperforming_products demoDf,
        r.total_revenue
            = ((demoDf.filter fun x => x.Product_Category = r.Product_Category).map
                (·.Revenue)).sum
        ∧ r.avg_discount
            = (((demoDf.filter fun x => x.Product_Category = r.Product_Category).map
                (·.Discount_pct)).sum : ℚ)
              / ((demoDf.filter fun x => x.Product_Category = r.Product_Category).length : ℚ)
        ∧ r.total_quantity
            = ((demoDf.filter fun x => x.Product_Category = r.Product_Category).map
                (·.Quantity)).sum)
    ∧ (underperforming_products demoDf).Pairwise
        (fun a b => a.total_revenue ≤ b.total_revenue) :=
  C5_underperforming_products_spec demoDf

/-- Helper: summing `if a = k then c else 0` over a duplicate-free list
containing `a` gives `c`. -/
theorem sum_map_ite_single {κ M : Type} [DecidableEq κ] [AddCommMonoid M]
    (a : κ) (c : M) : ∀ ks : List κ, ks.Nodup → a ∈ ks →
    (ks.map fun k => if a = k then c else 0).sum = c := by
  intro ks
  induction ks with
  | nil => intro _ ha; cases ha
  | cons k t ih =>
    intro hnd ha
    rcases List.nodup_cons.mp hnd with ⟨hkt, hndt⟩
    by_cases hak : a = k
    · subst hak
      have hz : (t.map fun k2 => if a = k2 then c else 0).sum = 0 := by
        apply List.sum_eq_zero
        intro x hx
        rcases List.mem_map.mp hx with ⟨k2, hk2, rfl⟩
        rw [if_neg]
        intro h
        subst h
        exact hkt hk2
      simp [hz]
    · have hat : a ∈ t := by
        rcases List.mem_cons.mp ha with h | h
        · exact absurd h hak
        · exact h
      simp [hak, ih hndt hat]

/-- Helper: a groupby partitions the total — summing each group's sum
over a duplicate-free key list covering every row's key gives the
overall sum. -/
theorem groupby_sum_partition {κ α M : Type} [DecidableEq κ] [AddCommMonoid M]
    (keyOf : α → κ) (f : α → M) :
    ∀ (rows : List α) (ks : List κ), ks.Nodup → (∀ r ∈ rows, keyOf r ∈ ks) →
    (ks.map fun k => ((rows.filter fun r => keyOf r = k).map f).sum).sum
      = (rows.map f).sum := by
  intro rows
  induction rows with
  | nil => intro ks _ _; simp
  | cons r rows ih =>
    intro ks hnd hcov
    have hr : keyOf r ∈ ks := hcov r (List.mem_cons_self r rows)
    have hcov2 : ∀ x ∈ rows, keyOf x ∈ ks := fun x hx => hcov x (List.mem_cons_of_mem r hx)
    have hsplit : (ks.map fun k => (((r :: rows).filter fun x => keyOf x = k).map f).sum)
        = ks.map fun k => (if keyOf r = k then f r else 0)
            + ((rows.filter fun x => keyOf x = k).map f).sum := by
      apply List.map_congr_left
      intro k _
      by_cases h : keyOf r = k
      · simp [List.filter_cons, h]
      · simp [List.filter_cons, h]
    rw [hsplit, List.sum_map_add, sum_map_ite_single (keyOf r) (f r) ks hnd hr,
      ih ks hnd hcov2]
    simp

/-- Helper: zipping a list with its image under `g` pairs each element
with its own image. -/
theorem zip_map_self_snd {α β : Type} (g : α → β) :
    ∀ (l : List α) (p : α × β), p ∈ l.zip (l.map g) → p.2 = g p.1 := by
  intro l
  induction l with
  | nil => intro p hp; cases hp
  | cons a t ih =>
    intro p hp
    rw [List.map_cons, List.zip_cons_cons] at hp
    rcases List.mem_cons.mp hp with h | h
    · rw [h]
    · exact ih p h

/-- Helper: the group sums of `sales_trend` account exactly for the
rows whose `Year` and `Month` are non-null — the pandas groupby drops
every null-keyed row from the aggregation. -/
theorem sales_trend_sum_eq_filtered_sum (df : List SalesEnrichedRow) :
    ((sales_trend df).map (·.Revenue)).sum
      = ((df.filter fun r => r.Year.isSome && r.Month.isSome).map (·.Revenue)).sum := by
  unfold sales_trend
  rw [List.map_map]
  exact groupby_sum_partition trendKey (fun r => r.Revenue)
    (df.filter fun r => r.Year.isSome && r.Month.isSome)
    (List.insertionSort trendKeyLe
      (((df.filter fun r => r.Year.isSome && r.Month.isSome).map trendKey).dedup))
    (((List.perm_insertionSort trendKeyLe _).nodup_iff).mpr (List.nodup_dedup _))
    (fun r hr => (List.perm_insertionSort trendKeyLe _).mem_iff.mpr
      (List.mem_dedup.mpr (List.mem_map_of_mem trendKey hr)))

/-- C6 (amended): a sales row whose transaction date is unparseable is
retained — the enriched table keeps one row per sales row, positionally,
and such a row carries null Year and Month — but analysis aggregations
do NOT give null-keyed rows their own group: `sales_trend`'s pandas
groupby drops them, its group sums accounting exactly for the rows with
non-null Year and Month. -/
theorem C6_null_dates_retained_but_dropped_by_groupby (sales : List OnlineSalesRow)
    (coupons : List CouponRow) (mkt : List MarketingRow) (tax : List TaxRow) :
    (enrich sales coupons mkt tax).length = sales.length
    ∧ (∀ p ∈ sales.zip (enrich sales coupons mkt tax),
        p.1.Transaction_Date = none → p.2.Year = none ∧ p.2.Month = none)
    ∧ ((sales_trend (enrich sales coupons mkt tax)).map (·.Revenue)).sum
        = (((enrich sales coupons mkt tax).filter fun r =>
            r.Year.isSome && r.Month.isSome).map (·.Revenue)).sum := by
  refine ⟨by simp [enrich, runPreprocessing], ?_, sales_trend_sum_eq_filtered_sum _⟩
  intro p hp hdate
  simp only [enrich, runPreprocessing, List.map_map] at hp
  have h2 := zip_map_self_snd _ sales p hp
  rw [h2]
  constructor <;> simp [Function.comp, attach_lookups, preprocess_sales_row, hdate]

/-- Witness for C6's amended statement at the concrete tables with one
unparseable-date row. -/
theorem C6_null_dates_retained_but_dropped_by_groupby_witness :
    (enrich [badDateSalesRow] [] [] []).length = ([badDateSalesRow] : List OnlineSalesRow).length
    ∧ (∀ p ∈ ([badDateSalesRow] : List OnlineSalesRow).zip (enrich [badDateSalesRow] [] [] []),
        p.1.Transaction_Date = none → p.2.Year = none ∧ p.2.Month = none)
    ∧ ((sales_trend (enrich [badDateSalesRow] [] [] [])).map (·.Revenue)).sum
        = (((enrich [badDateSalesRow] [] [] []).filter fun r =>
            r.Year.isSome && r.Month.isSome).map (·.Revenue)).sum :=
  C6_null_dates_retained_but_dropped_by_groupby [badDateSalesRow] [] [] []

/-- C7 (amended): the enrichment pipeline mutates the canonical tables
in place rather than leaving them unchanged: a nonempty Sales table
never keeps its original content (six derived columns are appended to
every row, turning it into the enriched table) and neither does a
nonempty Marketing table (three derived columns); the Coupons and Tax
tables are likewise rewritten in place whenever month stringification
or null-filling changes a cell. -/
theorem C7_preprocessing_mutates_tables (t : RawTables) :
    (t.online_sales ≠ [] →
      (runPreprocessing t).online_sales.map SalesEnrichedRow.cells
        ≠ t.online_sales.map OnlineSalesRow.cells)
    ∧ (t.marketing_spend ≠ [] →
      (runPreprocessing t).marketing_spend.map MarketingRow2.cells
        ≠ t.marketing_spend.map MarketingRow.cells) := by
  constructor
  · intro hne heq
    obtain ⟨r, rest, hsl⟩ := List.exists_cons_of_ne_nil hne
    simp only [runPreprocessing] at heq
    rw [hsl] at heq
    simp only [List.map_cons] at heq
    injection heq with h1 h2
    have hlen := congrArg List.length h1
    simp [SalesEnrichedRow.cells, OnlineSalesRow.cells] at hlen
  · intro hne heq
    obtain ⟨r, rest, hsl⟩ := List.exists_cons_of_ne_nil hne
    simp only [runPreprocessing] at heq
    rw [hsl] at heq
    simp only [List.map_cons] at heq
    injection heq with h1 h2
    have hlen := congrArg List.length h1
    simp [MarketingRow2.cells, MarketingRow.cells] at hlen

/-- Witness for C7's amended statement: the scenario tables' Sales and
Marketing content is changed by preprocessing. -/
theorem C7_preprocessing_mutates_tables_witness :
    ((runPreprocessing scenarioTables).online_sales.map SalesEnrichedRow.cells
        ≠ scenarioTables.online_sales.map OnlineSalesRow.cells)
    ∧ ((runPreprocessing scenarioTables).marketing_spend.map MarketingRow2.cells
        ≠ scenarioTables.marketing_spend.map MarketingRow.cells) :=
  ⟨(C7_preprocessing_mutates_tables scenarioTables).1 (by decide),
   (C7_preprocessing_mutates_tables scenarioTables).2 (by decide)⟩
